import Mathlib

/-!
Shallow embedding of the vsce-helper tool-dependency downloader
(Open-CMSIS-Pack/vsce-helper): the redirect-following HTTP download
primitive (`src/file-download.ts`), the local/web/archive file assets
(`src/file-assets.ts`) and the GitHub asset layer (`src/github-assets.ts`).

Network interactions are modelled by explicit environments: a `Server`
maps request URLs to HTTP responses, and a `GHEnv` records what the
GitHub REST API would answer (release listing, release assets by release
id, ref-to-SHA map, workflow runs, artifacts by run id).  Promises are
modelled as already-resolved values; a promise that a getter memoizes on
the instance becomes an explicit state field threaded through calls, and
every definition additionally reports how many network resolution calls
it actually performed, so that memoization claims are statable.
-/

/-! ### Character-list substring machinery -/

/-- `charsStartWith pat s` : `pat` is a prefix of the character list `s`. -/
def charsStartWith : List Char → List Char → Bool
  | [], _ => true
  | _ :: _, [] => false
  | p :: ps, c :: cs => p == c && charsStartWith ps cs

/-- `charsContain pat s` : `pat` occurs contiguously somewhere inside `s`. -/
def charsContain (pat : List Char) : List Char → Bool
  | [] => charsStartWith pat []
  | c :: cs => charsStartWith pat (c :: cs) || charsContain pat cs

/-- `StrContains s sub` : `sub` occurs as a contiguous substring of `s`. -/
def StrContains (s sub : String) : Prop :=
  charsContain sub.data s.data = true

instance (s sub : String) : Decidable (StrContains s sub) := by
  unfold StrContains; infer_instance

theorem dataAppend (a b : String) : (a ++ b).data = a.data ++ b.data := by
  cases a; cases b; rfl

theorem charsStartWithRefl (p : List Char) : charsStartWith p p = true := by
  induction p with
  | nil => rfl
  | cons c cs ih => simp [charsStartWith, ih]

theorem charsStartWithAppend (p rest : List Char) :
    charsStartWith p (p ++ rest) = true := by
  induction p with
  | nil => rfl
  | cons c cs ih => simp [charsStartWith, ih]

theorem charsContainOfStartsWith {p s : List Char}
    (h : charsStartWith p s = true) : charsContain p s = true := by
  cases s with
  | nil => exact h
  | cons c cs => simp [charsContain, h]

theorem charsContainAppendLeft {p s : List Char} (pre : List Char)
    (h : charsContain p s = true) : charsContain p (pre ++ s) = true := by
  induction pre with
  | nil => exact h
  | cons c cs ih =>
      cases s with
      | nil => simp_all [charsContain]
      | cons d ds => simp [charsContain, ih]

theorem charsContainHere (p rest : List Char) :
    charsContain p (p ++ rest) = true :=
  charsContainOfStartsWith (charsStartWithAppend p rest)

theorem charsContainSelf (p : List Char) : charsContain p p = true :=
  charsContainOfStartsWith (charsStartWithRefl p)

/-! ### HTTP model and `downloadFile` (src/file-download.ts) -/

/-- A response header list as delivered by node (`res.headers`). -/
abbrev Headers := List (String × String)

/-- First value bound to key `k`, mirroring JS property lookup. -/
def headerLookup (hs : Headers) (k : String) : Option String :=
  (hs.find? (fun p => p.1 == k)).map (fun p => p.2)

/-- JS truthiness of an optional string header value
(`undefined` and the empty string are falsy). -/
def truthy : Option String → Bool
  | none => false
  | some s => s ≠ ""

/-- An HTTP response as observed from `https.request`'s callback. -/
structure HttpResponse where
  statusCode : Nat
  statusMessage : Option String
  headers : Headers
  body : String

/-- The network: what each URL answers. -/
abbrev Server := String → HttpResponse

/-- One issued HTTP request: its URL and the request headers actually sent. -/
structure HttpEvent where
  url : String
  reqHeaders : Headers
deriving DecidableEq

/-- The default request headers of `downloadFile`. -/
def defaultHeaders : Headers :=
  [("Accept", "application/octet-stream"), ("User-Agent", "vsce-helpers")]

/-- JS object spread `\x7b ...base, ...extra \x7d`: keys of `base` keep their
position but take the value from `extra` when overridden; keys only in
`extra` are appended. -/
def mergeHeaders (base extra : Headers) : Headers :=
  base.map (fun p =>
    match headerLookup extra p.1 with
    | some v => (p.1, v)
    | none => p)
  ++ extra.filter (fun q => (headerLookup base q.1).isNone)

/-- `JSON.stringify(headers, null, 2)` over a flat string-valued object. -/
def jsonStringify (hs : Headers) : String :=
  match hs with
  | [] => "\x7b\x7d"
  | _ =>
      "\x7b\n"
      ++ String.intercalate ",\n"
          (hs.map (fun p => "  \x22" ++ p.1 ++ "\x22: \x22" ++ p.2 ++ "\x22"))
      ++ "\n\x7d"

/-- The rejection message built at src/file-download.ts:39-40:
`Status Code: $\x7bstatusCode\x7d\n$\x7burl\x7d: $\x7bstatusMessage ?? ''\x7d\n$\x7bheaders\x7d`. -/
def downloadErrMessage (res : HttpResponse) (url : String) : String :=
  ("Status Code: " ++ toString res.statusCode ++ "\n")
    ++ (url ++ (": " ++ (res.statusMessage.getD "" ++ ("\n" ++ jsonStringify res.headers))))

/-- Outcome of `downloadFile`: the resolved path together with the content
streamed to it, or the rejection message. -/
inductive DlResult where
  | ok (path : String) (content : String)
  | err (msg : String)
deriving DecidableEq

/-- `downloadFile(url, outputPath, headers)` from src/file-download.ts.
Returns the list of requests issued (in order) and the final outcome.
The redirect recursion at line 37 is `downloadFile(location, outputPath)`:
the caller-supplied `headers` argument is NOT passed along, so the
recursive call runs with the default empty headers.  `fuel` bounds the
redirect chain length (the source recursion is unbounded). -/
def downloadFile (server : Server) :
    Nat → String → String → Headers → List HttpEvent × DlResult
  | 0, _, _, _ => ([], .err "redirect chain exhausted the model fuel")
  | fuel + 1, url, outputPath, headers =>
      let sent := mergeHeaders defaultHeaders headers
      let res := server url
      if res.statusCode < 200 ∨ 300 ≤ res.statusCode then
        if (res.statusCode = 301 ∨ res.statusCode = 302)
            ∧ truthy (headerLookup res.headers "location") = true then
          let loc := (headerLookup res.headers "location").getD ""
          let rec' := downloadFile server fuel loc outputPath []
          (⟨url, sent⟩ :: rec'.1, rec'.2)
        else
          ([⟨url, sent⟩], .err (downloadErrMessage res url))
      else
        ([⟨url, sent⟩], .ok outputPath res.body)

/-! ### Path helpers (node:path) -/

/-- `path.join(a, b)` for the two-segment uses in this codebase. -/
def pathJoin (a b : String) : String :=
  if a = "" then b else if a.endsWith "/" then a ++ b else a ++ "/" ++ b

/-- `path.basename(p)`: the last non-empty `/`-separated segment. -/
def basename (p : String) : String :=
  ((((p.splitOn "/").filter (fun s => !s.isEmpty)).getLast?).getD "")

/-! ### JS regex model for tag / artifact-name patterns

`GitHubReleaseAsset` accepts `tag : RegExp | string`; a string is wrapped
as `new RegExp("v?(" + tag + ")")` (src/github-assets.ts, `tagRegex`).
Only the resulting family `v?(<literal>)` needs concrete semantics, where
in the literal body `.` matches any character (the only regex
metacharacter occurring in version-number literals).  A genuine `RegExp`
supplied by the caller is arbitrary code and is embedded abstractly as a
search function together with its `source` text. -/

/-- One pattern-body character against one subject character: `.` is the
wildcard, anything else matches itself. -/
def patCharMatches (p c : Char) : Bool := p == '.' || p == c

/-- Match the pattern body against a prefix of `s`, returning the matched
characters (the capture of the group `(<body>)`). -/
def matchBody : List Char → List Char → Option (List Char)
  | [], _ => some []
  | _ :: _, [] => none
  | p :: ps, c :: cs =>
      if patCharMatches p c then (matchBody ps cs).map (fun l => c :: l) else none

/-- Try `v?(<body>)` at the current position: the greedy `v?` first
consumes a leading `v` when present, backtracking to the empty
alternative if the body does not match after it. -/
def tryHere (body s : List Char) : Option (List Char) :=
  match s with
  | 'v' :: rest => (matchBody body rest).orElse (fun _ => matchBody body s)
  | _ => matchBody body s

/-- Unanchored search, leftmost match first, as `String.prototype.match`
does: returns the capture of the group on success. -/
def searchPat (body : List Char) : List Char → Option (List Char)
  | [] => tryHere body []
  | c :: cs => (tryHere body (c :: cs)).orElse (fun _ => searchPat body cs)

/-- An arbitrary caller-supplied `RegExp`, abstractly: its `source` text
and its search function; `search t = some g` means `t.match(re)` is
non-null with `g` the optional first capture group. -/
structure RegexModel where
  source : String
  search : String → Option (Option String)

/-- The `RegExp | string` union type of the `tag` constructor argument. -/
inductive TagPattern where
  | str (s : String)
  | regex (m : RegexModel)

/-- `tagRegex.source`: a literal string `s` is wrapped as `v?(s)`. -/
def TagPattern.patSource : TagPattern → String
  | .str s => "v?(" ++ s ++ ")"
  | .regex m => m.source

/-- `t.match(tagRegex)`: `none` when the match is null, otherwise the
optional first capture group (`match[1]`). -/
def TagPattern.searchTag : TagPattern → String → Option (Option String)
  | .str s, t => (searchPat s.data t.data).map (fun g => some (String.mk g))
  | .regex m, t => m.search t

/-! ### GitHub API environment -/

/-- One release from `octokit.rest.repos.listReleases` (newest first). -/
structure ReleaseInfo where
  tag_name : String
  id : Nat
deriving DecidableEq

/-- One binary asset of a release, from `listReleaseAssets`. -/
structure ReleaseAssetInfo where
  name : String
  url : String
deriving DecidableEq

/-- One workflow run, from `octokit.rest.actions.listWorkflowRuns`.  The
`workflow` field records which workflow file the run belongs to (the API
routes on it); runs are listed most recent first. -/
structure WorkflowRun where
  id : Nat
  run_number : Nat
  status : String
  workflow : String
deriving DecidableEq

/-- One artifact of a run, from `listWorkflowRunArtifacts`. -/
structure ArtifactInfo where
  id : Nat
  name : String
deriving DecidableEq

/-- What the GitHub REST API would answer: the full release listing
(newest first), release assets per release id, the ref-to-commit-SHA
mapping served by `git.getRef`, the workflow-run history (most recent
first, across workflows) and the artifacts per run id. -/
structure GHEnv where
  releases : List ReleaseInfo
  releaseAssets : Nat → List ReleaseAssetInfo
  refSha : String → String
  runs : List WorkflowRun
  artifacts : Nat → List ArtifactInfo

/-- `octokit.rest.actions.listWorkflowRuns` with a `status` filter and a
`per_page` limit, modelled from the documented API behaviour: runs of the
named workflow, filtered to the requested status, most recent first,
truncated to a page. -/
def GHEnv.listWorkflowRuns (env : GHEnv) (workflow_id status : String)
    (per_page : Nat) : List WorkflowRun :=
  ((env.runs.filter (fun r => r.workflow == workflow_id)).filter
      (fun r => r.status == status)).take per_page

/-! ### GitHubReleaseAsset (src/github-assets.ts) -/

/-- Constructor data of `GitHubReleaseAsset`. -/
structure GitHubReleaseAsset where
  owner : String
  repo : String
  tag : TagPattern
  assetName : String

/-- The instance's memoized `releasePromise` field: `none` before the
first access, `some r` once the promise exists with resolved value `r`. -/
structure ReleaseState where
  releasePromise : Option (Option ReleaseInfo)

/-- The fresh instance state (no promise created yet). -/
def releaseInit : ReleaseState := ⟨none⟩

/-- The `release` getter: on first access lists the releases and takes the
first whose `tag_name` matches `tagRegex` (JS truthiness of `match`);
afterwards returns the memoized promise.  The third component counts the
network listing calls performed (0 or 1). -/
def GitHubReleaseAsset.release (a : GitHubReleaseAsset) (env : GHEnv)
    (s : ReleaseState) : Option ReleaseInfo × ReleaseState × Nat :=
  match s.releasePromise with
  | some r => (r, s, 0)
  | none =>
      let r := env.releases.find? (fun rel => (a.tag.searchTag rel.tag_name).isSome)
      (r, ⟨some r⟩, 1)

/-- The `version` getter: `release?.tag_name?.match(tagRegex)?.[1]`. -/
def GitHubReleaseAsset.version (a : GitHubReleaseAsset) (env : GHEnv)
    (s : ReleaseState) : Option String × ReleaseState × Nat :=
  let (r, s', n) := a.release env s
  ((r.bind (fun rel => (a.tag.searchTag rel.tag_name).bind id)), s', n)

/-- The `cacheId` getter:
`` `$\x7bowner\x7d/$\x7brepo\x7d/$\x7brelease?.tag_name\x7d` `` — when the promise resolved to
`undefined` the template literal stringifies it as `"undefined"`. -/
def GitHubReleaseAsset.cacheId (a : GitHubReleaseAsset) (env : GHEnv)
    (s : ReleaseState) : String × ReleaseState × Nat :=
  let (r, s', n) := a.release env s
  (a.owner ++ "/" ++ a.repo ++ "/"
      ++ (match r with | some rel => rel.tag_name | none => "undefined"),
    s', n)

/-- `findReleaseAsset`: requires a matched release, then looks the named
asset up in that release's asset list; throws when either is missing. -/
def GitHubReleaseAsset.findReleaseAsset (a : GitHubReleaseAsset) (env : GHEnv)
    (s : ReleaseState) : Except String ReleaseAssetInfo × ReleaseState :=
  let (r, s', _) := a.release env s
  match r with
  | none =>
      (.error ("Could not find release for tag pattern " ++ a.tag.patSource), s')
  | some release =>
      match (env.releaseAssets release.id).find? (fun x => x.name == a.assetName) with
      | none =>
          (.error ("Could not find release asset " ++ a.assetName
              ++ " for release \x27" ++ release.tag_name ++ "\x27"), s')
      | some asset => (.ok asset, s')

/-- `copyTo(dest)`: locates the release asset, then
`this.downloadFile(new URL(url), path.join(dest, this.assetName))`.
The final download resolves to the destination file path on success
(`AbstractAsset.mkDest`/`downloadFile` live in downloader.ts, which is
not among the sources; modelled from the spec: `mkDest` returns the
supplied destination, the transfer primitive resolves to its output
path). -/
def GitHubReleaseAsset.copyTo (a : GitHubReleaseAsset) (env : GHEnv)
    (s : ReleaseState) (dest : String) : Except String String × ReleaseState :=
  match a.findReleaseAsset env s with
  | (.error e, s') => (.error e, s')
  | (.ok _, s') => (.ok (pathJoin dest a.assetName), s')

/-! ### GitHubRepoAsset (src/github-assets.ts) -/

/-- Constructor data of `GitHubRepoAsset`; `refOpt` is `options?.ref`. -/
structure GitHubRepoAsset where
  owner : String
  repo : String
  refOpt : Option String

/-- `this.ref = options?.ref ?? 'main'`. -/
def GitHubRepoAsset.ref (a : GitHubRepoAsset) : String := a.refOpt.getD "main"

/-- The per-instance `refs` map of the `GitHubAsset` base class. -/
abbrev RefsState := List (String × String)

/-- The fresh instance state (empty `refs` map). -/
def refsInit : RefsState := []

/-- `GitHubAsset.resolveRef`: returns the memoized SHA when the ref was
already resolved, otherwise calls `git.getRef` once and records the SHA.
The third component counts the network calls performed (0 or 1). -/
def GitHubRepoAsset.resolveRef (env : GHEnv) (s : RefsState) (ref : String) :
    String × RefsState × Nat :=
  match s.find? (fun p => p.1 == ref) with
  | some p => (p.2, s, 0)
  | none => (env.refSha ref, (ref, env.refSha ref) :: s, 1)

/-- The `version` getter: `` resolveRef(ref).then(sha => `$\x7bref\x7d@$\x7bsha\x7d`) ``. -/
def GitHubRepoAsset.version (a : GitHubRepoAsset) (env : GHEnv)
    (s : RefsState) : String × RefsState × Nat :=
  let (sha, s', n) := GitHubRepoAsset.resolveRef env s a.ref
  (a.ref ++ "@" ++ sha, s', n)

/-- The `cacheId` getter: `` `$\x7bowner\x7d/$\x7brepo\x7d/$\x7bsha\x7d` ``. -/
def GitHubRepoAsset.cacheId (a : GitHubRepoAsset) (env : GHEnv)
    (s : RefsState) : String × RefsState × Nat :=
  let (sha, s', n) := GitHubRepoAsset.resolveRef env s a.ref
  (a.owner ++ "/" ++ a.repo ++ "/" ++ sha, s', n)

/-! ### GitHubWorkflowAsset (src/github-assets.ts) -/

/-- The `string | RegExp` artifact-name pattern.  A literal string handed
to `String.prototype.match` is compiled as the regex of its own text (no
`v?(...)` wrapping, no capture needed since only truthiness is used). -/
inductive NamePattern where
  | str (s : String)
  | regex (m : RegexModel)

/-- Unanchored search of a bare pattern body (no `v?` alternative). -/
def searchBody (body : List Char) : List Char → Option (List Char)
  | [] => matchBody body []
  | c :: cs => (matchBody body (c :: cs)).orElse (fun _ => searchBody body cs)

/-- `artifact.name.match(artifactName)` as a truthiness test. -/
def NamePattern.matchesName : NamePattern → String → Bool
  | .str s, t => (searchBody s.data t.data).isSome
  | .regex m, t => (m.search t).isSome

/-- `` `$\x7bartifactName\x7d` ``: a string interpolates as itself, a `RegExp`
stringifies as `/source/`. -/
def NamePattern.display : NamePattern → String
  | .str s => s
  | .regex m => "/" ++ m.source ++ "/"

/-- Constructor data of `GitHubWorkflowAsset`. -/
structure GitHubWorkflowAsset where
  owner : String
  repo : String
  workflow : String
  artifactName : NamePattern

/-- The instance's memoized `lastWorkflowRunPromise` field. -/
structure WorkflowState where
  lastWorkflowRunPromise : Option (Option WorkflowRun)

/-- The fresh instance state (no promise created yet). -/
def workflowInit : WorkflowState := ⟨none⟩

/-- The `lastWorkflowRun` getter: on first access lists the workflow's
runs with `status: 'success', per_page: 1` and takes `workflow_runs[0]`
(which is `undefined` when the page is empty); afterwards returns the
memoized promise.  The third component counts the listing calls (0/1). -/
def GitHubWorkflowAsset.lastWorkflowRun (a : GitHubWorkflowAsset) (env : GHEnv)
    (s : WorkflowState) : Option WorkflowRun × WorkflowState × Nat :=
  match s.lastWorkflowRunPromise with
  | some r => (r, s, 0)
  | none =>
      let r := (env.listWorkflowRuns a.workflow "success" 1).head?
      (r, ⟨some r⟩, 1)

/-- The message of the `TypeError` node raises when `run.id` is read off
an `undefined` run (`workflow_runs[0]` of an empty page). -/
def jsUndefinedRunId : String :=
  "Cannot read properties of undefined (reading \x27id\x27)"

/-- The `version` getter: `` run => `$\x7bworkflow\x7d@$\x7brun.id\x7d` `` — reading
`run.id` throws a `TypeError` when no run was found, so the promise
rejects with that error rather than a descriptive message. -/
def GitHubWorkflowAsset.version (a : GitHubWorkflowAsset) (env : GHEnv)
    (s : WorkflowState) : Except String String × WorkflowState × Nat :=
  let (r, s', n) := a.lastWorkflowRun env s
  (match r with
    | some run => .ok (a.workflow ++ "@" ++ toString run.id)
    | none => .error jsUndefinedRunId, s', n)

/-- The `cacheId` getter:
`` `$\x7bowner\x7d/$\x7brepo\x7d/$\x7bworkflow\x7d/$\x7brun.id\x7d` ``, same `TypeError`
behaviour on a missing run. -/
def GitHubWorkflowAsset.cacheId (a : GitHubWorkflowAsset) (env : GHEnv)
    (s : WorkflowState) : Except String String × WorkflowState × Nat :=
  let (r, s', n) := a.lastWorkflowRun env s
  (match r with
    | some run =>
        .ok (a.owner ++ "/" ++ a.repo ++ "/" ++ a.workflow ++ "/" ++ toString run.id)
    | none => .error jsUndefinedRunId, s', n)

/-- `copyTo(dest)`: awaits the memoized run (reading `run.id` throws the
same `TypeError` when it is `undefined`), lists that run's artifacts,
takes the first whose name matches `artifactName` (error naming the
pattern and run id when none does), downloads its zip and extracts it
into `dest` (`mkTempDir`/`assureFile`/`extractArchive` live in
downloader.ts, which is not among the sources; modelled from the spec:
extraction lands in the destination, which is the resolved path). -/
def GitHubWorkflowAsset.copyTo (a : GitHubWorkflowAsset) (env : GHEnv)
    (s : WorkflowState) (dest : String) : Except String String × WorkflowState :=
  let (r, s', _) := a.lastWorkflowRun env s
  match r with
  | none => (.error jsUndefinedRunId, s')
  | some run =>
      match (env.artifacts run.id).find? (fun art => a.artifactName.matchesName art.name) with
      | none =>
          (.error ("No artifact found matching " ++ a.artifactName.display
              ++ " in workflow run " ++ toString run.id), s')
      | some _ => (.ok dest, s')

/-! ### Local variants (src/file-assets.ts) -/

/-- The `Asset` interface seen by `ArchiveFileAsset` through its wrapped
`subject`: the two identity getters, as resolved values. -/
structure AssetIface where
  version : Option String
  cacheId : Option String

/-- Constructor data of `ArchiveFileAsset`. -/
structure ArchiveFileAsset where
  subject : AssetIface
  strip : Nat

/-- `get version() \x7b return this.subject.version; \x7d`. -/
def ArchiveFileAsset.version (a : ArchiveFileAsset) : Option String :=
  a.subject.version

/-- Modelled from the spec: `ArchiveFileAsset` does not override
`cacheId`, so the getter is inherited from `AbstractAsset` in
downloader.ts, which is not among the sources; the spec states
"`version`/`cacheId` delegate to `subject`". -/
def ArchiveFileAsset.cacheId (a : ArchiveFileAsset) : Option String :=
  a.subject.cacheId

/-- A `URL` instance as used by `WebFileAsset`. -/
structure UrlModel where
  protocol : String
  host : String
  pathname : String
deriving DecidableEq

/-- `url.toString()` for the modelled components. -/
def UrlModel.toUrlString (u : UrlModel) : String :=
  u.protocol ++ "//" ++ u.host ++ u.pathname

/-- Constructor data of `WebFileAsset`. -/
structure WebFileAsset where
  url : UrlModel
  filename : Option String
  versionArg : Option String
  headers : Headers

/-- `get version() \x7b return this._version; \x7d`. -/
def WebFileAsset.version (a : WebFileAsset) : Option String := a.versionArg

/-- `copyTo(dest)`: `dest = await this.mkDest(dest)` (mkDest lives in
downloader.ts, not among the sources; modelled from the spec: with a
destination supplied it is created and returned unchanged), then the
transfer primitive downloads the URL to
`path.join(dest, filename ?? path.basename(url.pathname))`. -/
def WebFileAsset.copyTo (a : WebFileAsset) (server : Server) (fuel : Nat)
    (dest : String) : List HttpEvent × DlResult :=
  let destFile := pathJoin dest (a.filename.getD (basename a.url.pathname))
  downloadFile server fuel a.url.toUrlString destFile a.headers

/-- Constructor data of `LocalFileAsset`. -/
structure LocalFileAsset where
  filepath : String
  targetName : Option String

/-- What `LocalFileAsset.copyTo(dest)` did: the file written by
`fs.copyFile` and the resolved value. -/
structure LocalCopyOutcome where
  copiedTo : String
  result : String
deriving DecidableEq

/-- `copyTo(dest)`: copies `filepath` to
`path.join(dest, targetName ?? path.basename(filepath))` and resolves to
`dest` itself (the destination directory, not the copied file). -/
def LocalFileAsset.copyTo (a : LocalFileAsset) (dest : String) : LocalCopyOutcome :=
  ⟨pathJoin dest (a.targetName.getD (basename a.filepath)), dest⟩

/-! ### Helper lemmas -/

theorem headTakeOne {α : Type} (l : List α) : (l.take 1).head? = l.head? := by
  cases l <;> rfl

theorem headFilter {α : Type} (p : α → Bool) (l : List α) :
    (l.filter p).head? = l.find? p := by
  induction l with
  | nil => rfl
  | cons a l ih =>
      by_cases h : p a = true
      · simp [List.filter, List.find?, h]
      · simp only [List.filter, List.find?, Bool.not_eq_true] at *
        simp [h, ih]

/-- Every diagnostic part occurs in the `downloadFile` rejection message:
the numeric status code, the URL, the status message and the serialized
response headers. -/
theorem downloadErrMessageParts (res : HttpResponse) (url : String) :
    StrContains (downloadErrMessage res url) (toString res.statusCode)
    ∧ StrContains (downloadErrMessage res url) url
    ∧ StrContains (downloadErrMessage res url) (res.statusMessage.getD "")
    ∧ StrContains (downloadErrMessage res url) (jsonStringify res.headers) := by
  simp only [StrContains, downloadErrMessage, dataAppend, List.append_assoc]
  refine ⟨?_, ?_, ?_, ?_⟩
  · exact charsContainAppendLeft _ (charsContainHere _ _)
  · exact charsContainAppendLeft _ (charsContainAppendLeft _
      (charsContainAppendLeft _ (charsContainHere _ _)))
  · exact charsContainAppendLeft _ (charsContainAppendLeft _
      (charsContainAppendLeft _ (charsContainAppendLeft _
        (charsContainAppendLeft _ (charsContainHere _ _)))))
  · exact charsContainAppendLeft _ (charsContainAppendLeft _
      (charsContainAppendLeft _ (charsContainAppendLeft _
        (charsContainAppendLeft _ (charsContainAppendLeft _
          (charsContainAppendLeft _ (charsContainSelf _)))))))

/-! ### Claim C1 -/

/-- A server that 301-redirects one URL, with an authenticated caller. -/
def c1Server : Server := fun u =>
  if u == "https://a.example/f" then
    ⟨301, some "Moved Permanently", [("location", "https://b.example/f")], ""⟩
  else
    ⟨200, some "OK", [], "payload"⟩

/-- The caller-supplied request headers of the C1 scenario. -/
def c1CallerHeaders : Headers := [("authorization", "Bearer secret")]

/-- C1, counterexample: on a 301 with a `location` header the recursive
request does NOT carry the same caller-supplied headers — the original
request carries the `authorization` header, the follow-up request to the
redirect target carries only the defaults. -/
theorem downloadFile_redirect_drops_caller_headers :
    (downloadFile c1Server 2 "https://a.example/f" "/out/f" c1CallerHeaders).1
      = [⟨"https://a.example/f", mergeHeaders defaultHeaders c1CallerHeaders⟩,
         ⟨"https://b.example/f", defaultHeaders⟩]
    ∧ headerLookup (mergeHeaders defaultHeaders c1CallerHeaders) "authorization"
        = some "Bearer secret"
    ∧ headerLookup defaultHeaders "authorization" = none
    ∧ (downloadFile c1Server 2 "https://a.example/f" "/out/f" c1CallerHeaders).2
        = .ok "/out/f" "payload" := by
  decide

/-- C1 (amended): on a 301/302 response with a truthy `location` header,
`downloadFile` recurses on the new URL with an EMPTY caller-header
argument (only the default `Accept`/`User-Agent` headers are sent; the
original caller-supplied headers are dropped), and the caller observes
exactly the outcome of the recursive download of the final location. -/
theorem downloadFile_redirect_follows_location
    (server : Server) (fuel : Nat) (url out : String) (hs : Headers)
    (h301 : (server url).statusCode = 301 ∨ (server url).statusCode = 302)
    (hloc : truthy (headerLookup (server url).headers "location") = true) :
    downloadFile server (fuel + 1) url out hs
      = (⟨url, mergeHeaders defaultHeaders hs⟩ ::
          (downloadFile server fuel
            ((headerLookup (server url).headers "location").getD "") out []).1,
         (downloadFile server fuel
            ((headerLookup (server url).headers "location").getD "") out []).2) := by
  have hst : (server url).statusCode < 200 ∨ 300 ≤ (server url).statusCode := by
    rcases h301 with h | h <;> rw [h] <;> omega
  conv_lhs => rw [downloadFile]
  rw [if_pos hst, if_pos ⟨h301, hloc⟩]

/-- Witness for C1 (amended) at the concrete redirecting server. -/
theorem downloadFile_redirect_follows_location_witness :
    downloadFile c1Server 2 "https://a.example/f" "/out/f" c1CallerHeaders
      = (⟨"https://a.example/f", mergeHeaders defaultHeaders c1CallerHeaders⟩ ::
          (downloadFile c1Server 1 "https://b.example/f" "/out/f" []).1,
         (downloadFile c1Server 1 "https://b.example/f" "/out/f" []).2) := by
  have h := downloadFile_redirect_follows_location c1Server 1
    "https://a.example/f" "/out/f" c1CallerHeaders (by decide) (by decide)
  simpa using h

/-! ### Claim C8 -/

/-- C8: on a response that is neither 2xx nor a followed 301/302
redirect, `downloadFile` rejects, and the rejection message contains the
numeric status code, the URL, the status message and the serialized
response headers. -/
theorem downloadFile_non2xx_rejects_with_diagnostics
    (server : Server) (fuel : Nat) (url out : String) (hs : Headers)
    (hst : (server url).statusCode < 200 ∨ 300 ≤ (server url).statusCode)
    (hnr : ¬ (((server url).statusCode = 301 ∨ (server url).statusCode = 302)
        ∧ truthy (headerLookup (server url).headers "location") = true)) :
    (downloadFile server (fuel + 1) url out hs).2
      = .err (downloadErrMessage (server url) url)
    ∧ StrContains (downloadErrMessage (server url) url) (toString (server url).statusCode)
    ∧ StrContains (downloadErrMessage (server url) url) url
    ∧ StrContains (downloadErrMessage (server url) url) ((server url).statusMessage.getD "")
    ∧ StrContains (downloadErrMessage (server url) url) (jsonStringify (server url).headers) := by
  refine ⟨?_, downloadErrMessageParts (server url) url⟩
  unfold downloadFile
  rw [if_pos hst, if_neg hnr]

/-- A server answering 404 everywhere. -/
def c8Server : Server := fun _ => ⟨404, some "Not Found", [("server", "GitHub.com")], ""⟩

/-- Witness for C8 at the concrete 404 server. -/
theorem downloadFile_non2xx_rejects_with_diagnostics_witness :
    (downloadFile c8Server 1 "https://x.example/f" "/o" []).2
      = .err (downloadErrMessage (c8Server "https://x.example/f") "https://x.example/f")
    ∧ StrContains (downloadErrMessage (c8Server "https://x.example/f") "https://x.example/f")
        (toString (c8Server "https://x.example/f").statusCode)
    ∧ StrContains (downloadErrMessage (c8Server "https://x.example/f") "https://x.example/f")
        "https://x.example/f"
    ∧ StrContains (downloadErrMessage (c8Server "https://x.example/f") "https://x.example/f")
        ((c8Server "https://x.example/f").statusMessage.getD "")
    ∧ StrContains (downloadErrMessage (c8Server "https://x.example/f") "https://x.example/f")
        (jsonStringify (c8Server "https://x.example/f").headers) :=
  downloadFile_non2xx_rejects_with_diagnostics c8Server 0 "https://x.example/f" "/o" []
    (by decide) (by decide)

/-! ### Claim C10 -/

/-- C10: for a supplied destination directory, `LocalFileAsset.copyTo`
resolves to the destination directory itself, while
`WebFileAsset.copyTo` resolves to the full path of the downloaded file —
the destination joined with `filename ?? path.basename(url.pathname)`. -/
theorem copyTo_result_shapes
    (l : LocalFileAsset) (w : WebFileAsset) (server : Server) (fuel : Nat)
    (dest : String)
    (h2xx : 200 ≤ (server w.url.toUrlString).statusCode
        ∧ (server w.url.toUrlString).statusCode < 300) :
    (l.copyTo dest).result = dest
    ∧ (w.copyTo server (fuel + 1) dest).2
        = .ok (pathJoin dest (w.filename.getD (basename w.url.pathname)))
            ((server w.url.toUrlString).body) := by
  refine ⟨rfl, ?_⟩
  unfold WebFileAsset.copyTo downloadFile
  rw [if_neg (by omega)]

/-- A server answering 200 everywhere. -/
def c10Server : Server := fun _ => ⟨200, some "OK", [], "bits"⟩

/-- Witness for C10: a local asset and a web asset with no explicit
filename, against the concrete 200 server. -/
theorem copyTo_result_shapes_witness :
    ((LocalFileAsset.mk "/src/tool.cfg" none).copyTo "/dest").result = "/dest"
    ∧ ((WebFileAsset.mk ⟨"https:", "cdn.example", "/pkg/tool.tar.gz"⟩ none none []).copyTo
          c10Server 1 "/dest").2
        = .ok (pathJoin "/dest" ((Option.none).getD
            (basename (UrlModel.mk "https:" "cdn.example" "/pkg/tool.tar.gz").pathname)))
            ((c10Server (UrlModel.mk "https:" "cdn.example" "/pkg/tool.tar.gz").toUrlString).body) :=
  copyTo_result_shapes (LocalFileAsset.mk "/src/tool.cfg" none)
    (WebFileAsset.mk ⟨"https:", "cdn.example", "/pkg/tool.tar.gz"⟩ none none [])
    c10Server 0 "/dest" (by decide)

/-! ### Claim C2 -/

/-- Which of the two identity getters a caller queries. -/
inductive IdGetter where
  | version
  | cacheId

/-- Query one getter of a `GitHubReleaseAsset`, keeping the instance
state and the number of network resolution calls it performed. -/
def releaseQuery (a : GitHubReleaseAsset) (env : GHEnv) (g : IdGetter)
    (s : ReleaseState) : ReleaseState × Nat :=
  match g with
  | .version => (a.version env s).2
  | .cacheId => (a.cacheId env s).2

/-- Query one getter of a `GitHubRepoAsset`. -/
def repoQuery (a : GitHubRepoAsset) (env : GHEnv) (g : IdGetter)
    (s : RefsState) : RefsState × Nat :=
  match g with
  | .version => (a.version env s).2
  | .cacheId => (a.cacheId env s).2

/-- Query one getter of a `GitHubWorkflowAsset`. -/
def workflowQuery (a : GitHubWorkflowAsset) (env : GHEnv) (g : IdGetter)
    (s : WorkflowState) : WorkflowState × Nat :=
  match g with
  | .version => (a.version env s).2
  | .cacheId => (a.cacheId env s).2

/-- C2: for each GitHub-backed asset kind, querying `version` or
`cacheId` twice in sequence on one fresh instance performs at most one
underlying network resolution (release listing, ref-to-SHA lookup,
workflow-run listing respectively): the second query is served from the
memoized promise / refs map. -/
theorem github_getters_memoized (env : GHEnv)
    (aRel : GitHubReleaseAsset) (aRepo : GitHubRepoAsset)
    (aWf : GitHubWorkflowAsset) (g1 g2 g3 g4 g5 g6 : IdGetter) :
    (releaseQuery aRel env g1 releaseInit).2
        + (releaseQuery aRel env g2 (releaseQuery aRel env g1 releaseInit).1).2 ≤ 1
    ∧ (repoQuery aRepo env g3 refsInit).2
        + (repoQuery aRepo env g4 (repoQuery aRepo env g3 refsInit).1).2 ≤ 1
    ∧ (workflowQuery aWf env g5 workflowInit).2
        + (workflowQuery aWf env g6 (workflowQuery aWf env g5 workflowInit).1).2 ≤ 1 := by
  refine ⟨?_, ?_, ?_⟩
  · cases g1 <;> cases g2 <;>
      simp [releaseQuery, GitHubReleaseAsset.version, GitHubReleaseAsset.cacheId,
        GitHubReleaseAsset.release, releaseInit]
  · cases g3 <;> cases g4 <;>
      simp [repoQuery, GitHubRepoAsset.version, GitHubRepoAsset.cacheId,
        GitHubRepoAsset.resolveRef, refsInit]
  · cases g5 <;> cases g6 <;>
      simp [workflowQuery, GitHubWorkflowAsset.version, GitHubWorkflowAsset.cacheId,
        GitHubWorkflowAsset.lastWorkflowRun, workflowInit]

/-! ### Claim C3 -/

/-- A repository whose release listing (newest first) is
`["v2.0.0", "v1.5.0", "v1.0.0"]`. -/
def c3Env : GHEnv where
  releases := [⟨"v2.0.0", 1⟩, ⟨"v1.5.0", 2⟩, ⟨"v1.0.0", 3⟩]
  releaseAssets := fun _ => []
  refSha := fun _ => ""
  runs := []
  artifacts := fun _ => []

/-- A release asset with the literal string tag pattern `"1.5.0"`. -/
def c3Asset : GitHubReleaseAsset := ⟨"octo", "tool", .str "1.5.0", "tool.zip"⟩

/-- C3: with the literal tag pattern `"1.5.0"` (compiled to the regex
`v?(1.5.0)`) over the listing `["v2.0.0", "v1.5.0", "v1.0.0"]`, the first
matching release in listing order is the `"v1.5.0"` one, the resolved
`version` is the capture group `"1.5.0"`, and the `cacheId`
`"octo/tool/v1.5.0"` contains `"v1.5.0"`. -/
theorem release_tag_pattern_first_match :
    (c3Asset.release c3Env releaseInit).1 = some ⟨"v1.5.0", 2⟩
    ∧ (c3Asset.version c3Env releaseInit).1 = some "1.5.0"
    ∧ (c3Asset.cacheId c3Env releaseInit).1 = "octo/tool/v1.5.0"
    ∧ StrContains (c3Asset.cacheId c3Env releaseInit).1 "v1.5.0" := by
  decide

/-! ### Claim C4 -/

/-- C4: the run a `GitHubWorkflowAsset` uses is the first run of the
named workflow with `success` status in the most-recent-first listing —
skipping more recent non-successful runs — and `version` (resp.
`cacheId`, `copyTo`) combine the workflow file name with that run's id,
list that run's artifacts, etc. -/
theorem workflow_selects_latest_successful_run
    (env : GHEnv) (a : GitHubWorkflowAsset) (run : WorkflowRun)
    (h : (env.runs.filter (fun r => r.workflow == a.workflow)).find?
        (fun r => r.status == "success") = some run) :
    (a.lastWorkflowRun env workflowInit).1 = some run
    ∧ (a.version env workflowInit).1 = .ok (a.workflow ++ "@" ++ toString run.id)
    ∧ (a.cacheId env workflowInit).1
        = .ok (a.owner ++ "/" ++ a.repo ++ "/" ++ a.workflow ++ "/" ++ toString run.id)
    ∧ ∀ dest, (a.copyTo env workflowInit dest).1
        = (match (env.artifacts run.id).find?
              (fun art => a.artifactName.matchesName art.name) with
           | none => .error ("No artifact found matching " ++ a.artifactName.display
               ++ " in workflow run " ++ toString run.id)
           | some _ => .ok dest) := by
  have hR : (env.listWorkflowRuns a.workflow "success" 1).head? = some run := by
    rw [GHEnv.listWorkflowRuns, headTakeOne, headFilter]
    exact h
  refine ⟨?_, ?_, ?_, ?_⟩
  · simp [GitHubWorkflowAsset.lastWorkflowRun, workflowInit, hR]
  · simp [GitHubWorkflowAsset.version, GitHubWorkflowAsset.lastWorkflowRun,
      workflowInit, hR]
  · simp [GitHubWorkflowAsset.cacheId, GitHubWorkflowAsset.lastWorkflowRun,
      workflowInit, hR]
  · intro dest
    simp [GitHubWorkflowAsset.copyTo, GitHubWorkflowAsset.lastWorkflowRun,
      workflowInit, hR]
    cases (env.artifacts run.id).find? (fun art => a.artifactName.matchesName art.name) <;>
      simp

/-- A run history whose most recent run failed and whose most recent
successful run is run 17. -/
def c4Env : GHEnv where
  releases := []
  releaseAssets := fun _ => []
  refSha := fun _ => ""
  runs := [⟨20, 8, "failure", "build.yml"⟩, ⟨17, 7, "success", "build.yml"⟩,
    ⟨11, 5, "success", "build.yml"⟩]
  artifacts := fun i => if i == 17 then [⟨99, "tool-win"⟩] else []

/-- The workflow asset of the C4 scenario. -/
def c4Asset : GitHubWorkflowAsset := ⟨"octo", "tool", "build.yml", .str "tool"⟩

/-- Witness for C4: run 17 (not the more recent failed run 20) is
selected, and `copyTo` consults run 17's artifacts. -/
theorem workflow_selects_latest_successful_run_witness :
    (c4Asset.lastWorkflowRun c4Env workflowInit).1 = some ⟨17, 7, "success", "build.yml"⟩
    ∧ (c4Asset.version c4Env workflowInit).1
        = .ok ("build.yml" ++ "@" ++ toString (17 : Nat))
    ∧ (c4Asset.cacheId c4Env workflowInit).1
        = .ok ("octo" ++ "/" ++ "tool" ++ "/" ++ "build.yml" ++ "/" ++ toString (17 : Nat))
    ∧ (c4Asset.copyTo c4Env workflowInit "/dest").1
        = (match (c4Env.artifacts 17).find?
              (fun art => c4Asset.artifactName.matchesName art.name) with
           | none => .error ("No artifact found matching " ++ c4Asset.artifactName.display
               ++ " in workflow run " ++ toString (17 : Nat))
           | some _ => .ok "/dest") := by
  have h := workflow_selects_latest_successful_run c4Env c4Asset
    ⟨17, 7, "success", "build.yml"⟩ (by decide)
  exact ⟨h.1, h.2.1, h.2.2.1, h.2.2.2 "/dest"⟩

/-! ### Claim C5 -/

/-- C5: both identity getters of an `ArchiveFileAsset` equal those of its
wrapped subject, so the archived asset's cache identity is the subject's
cache identity. -/
theorem archive_asset_identity_delegates (a : ArchiveFileAsset) :
    a.version = a.subject.version ∧ a.cacheId = a.subject.cacheId :=
  ⟨rfl, rfl⟩

/-! ### Claims C6 and C9 -/

/-- C6: `copyTo` of a release asset rejects with a message naming the
compiled tag pattern when no release tag matches, and with a message
naming both the asset name and the matched release's tag when the named
asset is absent from that release's asset list. -/
theorem release_copyTo_not_found_errors
    (env : GHEnv) (a : GitHubReleaseAsset) (dest : String) :
    (env.releases.find? (fun rel => (a.tag.searchTag rel.tag_name).isSome) = none →
      (a.copyTo env releaseInit dest).1
          = .error ("Could not find release for tag pattern " ++ a.tag.patSource)
      ∧ StrContains ("Could not find release for tag pattern " ++ a.tag.patSource)
          a.tag.patSource)
    ∧ ∀ rel,
        env.releases.find? (fun r => (a.tag.searchTag r.tag_name).isSome) = some rel →
        (env.releaseAssets rel.id).find? (fun x => x.name == a.assetName) = none →
        (a.copyTo env releaseInit dest).1
            = .error ("Could not find release asset " ++ a.assetName
                ++ " for release \x27" ++ rel.tag_name ++ "\x27")
        ∧ StrContains ("Could not find release asset " ++ a.assetName
              ++ " for release \x27" ++ rel.tag_name ++ "\x27") a.assetName
        ∧ StrContains ("Could not find release asset " ++ a.assetName
              ++ " for release \x27" ++ rel.tag_name ++ "\x27") rel.tag_name := by
  constructor
  · intro h
    constructor
    · simp [GitHubReleaseAsset.copyTo, GitHubReleaseAsset.findReleaseAsset,
        GitHubReleaseAsset.release, releaseInit, h]
    · simp only [StrContains, dataAppend]
      exact charsContainAppendLeft _ (charsContainSelf _)
  · intro rel h1 h2
    refine ⟨?_, ?_, ?_⟩
    · simp [GitHubReleaseAsset.copyTo, GitHubReleaseAsset.findReleaseAsset,
        GitHubReleaseAsset.release, releaseInit, h1, h2]
    · simp only [StrContains, dataAppend, List.append_assoc]
      exact charsContainAppendLeft _ (charsContainHere _ _)
    · simp only [StrContains, dataAppend, List.append_assoc]
      exact charsContainAppendLeft _ (charsContainAppendLeft _
        (charsContainAppendLeft _ (charsContainHere _ _)))

/-- A repository with one release `v1.0.0` (id 5) whose only binary asset
is `other.zip`. -/
def c6Env : GHEnv where
  releases := [⟨"v1.0.0", 5⟩]
  releaseAssets := fun i => if i == 5 then [⟨"other.zip", "https://dl/other.zip"⟩] else []
  refSha := fun _ => ""
  runs := []
  artifacts := fun _ => []

/-- A release asset requesting `tool.zip` from the matching tag `1.0.0`. -/
def c6Asset : GitHubReleaseAsset := ⟨"octo", "tool", .str "1.0.0", "tool.zip"⟩

/-- A release asset whose tag pattern `9.9.9` matches no release. -/
def c6NoMatchAsset : GitHubReleaseAsset := ⟨"octo", "tool", .str "9.9.9", "tool.zip"⟩

/-- Witness for C6: both error paths at concrete inputs. -/
theorem release_copyTo_not_found_errors_witness :
    ((c6NoMatchAsset.copyTo c6Env releaseInit "/d").1
        = .error ("Could not find release for tag pattern " ++ c6NoMatchAsset.tag.patSource)
      ∧ StrContains ("Could not find release for tag pattern " ++ c6NoMatchAsset.tag.patSource)
          c6NoMatchAsset.tag.patSource)
    ∧ ((c6Asset.copyTo c6Env releaseInit "/d").1
        = .error ("Could not find release asset " ++ c6Asset.assetName
            ++ " for release \x27" ++ (ReleaseInfo.mk "v1.0.0" 5).tag_name ++ "\x27")
      ∧ StrContains ("Could not find release asset " ++ c6Asset.assetName
            ++ " for release \x27" ++ (ReleaseInfo.mk "v1.0.0" 5).tag_name ++ "\x27")
          c6Asset.assetName
      ∧ StrContains ("Could not find release asset " ++ c6Asset.assetName
            ++ " for release \x27" ++ (ReleaseInfo.mk "v1.0.0" 5).tag_name ++ "\x27")
          (ReleaseInfo.mk "v1.0.0" 5).tag_name) :=
  ⟨(release_copyTo_not_found_errors c6Env c6NoMatchAsset "/d").1 (by decide),
   (release_copyTo_not_found_errors c6Env c6Asset "/d").2 (ReleaseInfo.mk "v1.0.0" 5)
     (by decide) (by decide)⟩

/-- C9: when the tag pattern matches no release, the `version` getter
resolves to `undefined` (modelled `none`) and the `cacheId` getter
resolves to `owner/repo/undefined` — both getters are total, i.e. they
resolve rather than reject — while `copyTo` rejects with the
release-not-found error. -/
theorem release_getters_survive_unmatched_tag
    (env : GHEnv) (a : GitHubReleaseAsset) (dest : String)
    (h : env.releases.find? (fun rel => (a.tag.searchTag rel.tag_name).isSome) = none) :
    (a.version env releaseInit).1 = none
    ∧ (a.cacheId env releaseInit).1 = a.owner ++ "/" ++ a.repo ++ "/" ++ "undefined"
    ∧ (a.copyTo env releaseInit dest).1
        = .error ("Could not find release for tag pattern " ++ a.tag.patSource) := by
  refine ⟨?_, ?_, ?_⟩
  · simp [GitHubReleaseAsset.version, GitHubReleaseAsset.release, releaseInit, h]
  · simp [GitHubReleaseAsset.cacheId, GitHubReleaseAsset.release, releaseInit, h]
  · simp [GitHubReleaseAsset.copyTo, GitHubReleaseAsset.findReleaseAsset,
      GitHubReleaseAsset.release, releaseInit, h]

/-- Witness for C9 at the concrete unmatched tag pattern. -/
theorem release_getters_survive_unmatched_tag_witness :
    (c6NoMatchAsset.version c6Env releaseInit).1 = none
    ∧ (c6NoMatchAsset.cacheId c6Env releaseInit).1
        = c6NoMatchAsset.owner ++ "/" ++ c6NoMatchAsset.repo ++ "/" ++ "undefined"
    ∧ (c6NoMatchAsset.copyTo c6Env releaseInit "/dl").1
        = .error ("Could not find release for tag pattern " ++ c6NoMatchAsset.tag.patSource) :=
  release_getters_survive_unmatched_tag c6Env c6NoMatchAsset "/dl" (by decide)

/-! ### Claim C7 -/

/-- A workflow history whose only run of `build.yml` failed. -/
def c7Env : GHEnv where
  releases := []
  releaseAssets := fun _ => []
  refSha := fun _ => ""
  runs := [⟨20, 8, "failure", "build.yml"⟩]
  artifacts := fun _ => []

/-- The workflow asset of the C7 scenario. -/
def c7Asset : GitHubWorkflowAsset := ⟨"octo", "tool", "build.yml", .str "tool"⟩

/-- C7, counterexample: with no successful run, `version` rejects, but
the rejection message is the generic JS `TypeError` text, which names
neither the workflow file searched nor its owner/repository context. -/
theorem workflow_no_successful_run_message_counterexample :
    (c7Asset.version c7Env workflowInit).1 = .error jsUndefinedRunId
    ∧ ¬ StrContains jsUndefinedRunId "build.yml"
    ∧ ¬ StrContains jsUndefinedRunId "octo"
    ∧ ¬ StrContains jsUndefinedRunId "tool" :=
  ⟨rfl, by decide, by decide, by decide⟩

/-- C7 (amended): when the named workflow has no successful run,
`version`, `cacheId` and `copyTo` all reject — but with the generic JS
`TypeError` raised by reading `id` off the `undefined` run, not with a
descriptive message naming the identifier searched and its context. -/
theorem workflow_no_successful_run_rejects
    (env : GHEnv) (a : GitHubWorkflowAsset) (dest : String)
    (h : (env.runs.filter (fun r => r.workflow == a.workflow)).find?
        (fun r => r.status == "success") = none) :
    (a.version env workflowInit).1 = .error jsUndefinedRunId
    ∧ (a.cacheId env workflowInit).1 = .error jsUndefinedRunId
    ∧ (a.copyTo env workflowInit dest).1 = .error jsUndefinedRunId := by
  have hR : (env.listWorkflowRuns a.workflow "success" 1).head? = none := by
    rw [GHEnv.listWorkflowRuns, headTakeOne, headFilter]
    exact h
  refine ⟨?_, ?_, ?_⟩
  · simp [GitHubWorkflowAsset.version, GitHubWorkflowAsset.lastWorkflowRun,
      workflowInit, hR]
  · simp [GitHubWorkflowAsset.cacheId, GitHubWorkflowAsset.lastWorkflowRun,
      workflowInit, hR]
  · simp [GitHubWorkflowAsset.copyTo, GitHubWorkflowAsset.lastWorkflowRun,
      workflowInit, hR]

/-- Witness for C7 (amended) at the concrete failed-only run history. -/
theorem workflow_no_successful_run_rejects_witness :
    (c7Asset.version c7Env workflowInit).1 = .error jsUndefinedRunId
    ∧ (c7Asset.cacheId c7Env workflowInit).1 = .error jsUndefinedRunId
    ∧ (c7Asset.copyTo c7Env workflowInit "/dest").1 = .error jsUndefinedRunId :=
  workflow_no_successful_run_rejects c7Env c7Asset "/dest" (by decide)
